import Mathlib

/-!
Verification of the natural-language specification of the repository
`jinchang/BATMAN_summerschool` against its single source file,
`src/CLEASE/part1_clease_script.ipynb` (a Jupyter notebook driving the
external CLEASE library and the ASE toolkit on an Au-Cu alloy).

The notebook is shallowly embedded: each cell of interest is translated
into executable Lean definitions.  External-library behaviour that the
claims depend on (the ASE database query interface, `clease.tools.update_db`,
`numpy.ndarray.argmin`, JSON file round-trips) is not part of `src/`;
those parts are modelled from the specification text and are marked with
doc comments starting `Modelled from the spec:`.

Machine floats of the source are modelled as rationals (ℚ); only order
and field structure of the energy values matter for the claims.
-/

/-- Python exceptions that the embedded notebook code can surface.
The notebook itself contains no handler, so these only propagate. -/
inductive PyErr where
  | keyError
  | attributeError
  | indexError
  | fileNotFoundError
deriving DecidableEq, Repr

/-- A row of the ASE structure database `aucu_script.db`.
Modelled from the spec: the database is a row-oriented store of atomic
configurations keyed by identifiers such as name, generation number and
convergence status; the fields below are exactly the ones the notebook
reads (`row.id`, `row.name`, `formula_unit`, `struct_type`, `row.natoms`,
`row.final_struct_id`, `.energy`, `converged`).  `energy` is `Option`
because rows without a stored calculator energy raise `AttributeError`
when `.energy` is accessed. -/
structure DbRow where
  id : ℕ
  name : String
  formula_unit : String
  struct_type : String
  natoms : ℕ
  final_struct_id : ℕ
  energy : Option ℚ
  converged : Bool
deriving DecidableEq, Repr

/-- Modelled from the spec: `db.get(id=i)` of the external toolkit returns
the database row with the given id (the notebook relies on ids being
unique); it raises `KeyError` when no row matches.  We return the first
matching row, `none` marking the `KeyError` case. -/
def dbGet (db : List DbRow) (i : ℕ) : Option DbRow :=
  db.find? (fun r => r.id == i)

/-- Modelled from the spec: the selection
`db.select(formula_unit=fu, struct_type=initial)` used by the
minimum-energy selection cell returns, in database order, the rows whose
`formula_unit` and `struct_type` key-value pairs match the query. -/
def selectFU (db : List DbRow) (fu : String) : List DbRow :=
  db.filter (fun r => r.formula_unit == fu && r.struct_type == "initial")

/-- Embeds the loop body of the minimum-energy selection cell:
`energy = db.get(id=row.final_struct_id).energy; energy /= row.natoms`.
A missing row is a `KeyError`, a row without energy an `AttributeError`. -/
def epa (db : List DbRow) (r : DbRow) : Except PyErr ℚ :=
  match dbGet db r.final_struct_id with
  | none => .error .keyError
  | some fr =>
    match fr.energy with
    | none => .error .attributeError
    | some e => .ok (e / (r.natoms : ℚ))

/-- Effectful map over a list in the `Except` monad, evaluating left to
right and stopping at the first error, as a Python for-loop does. -/
def mapME (f : α → Except PyErr β) : List α → Except PyErr (List β)
  | [] => .ok []
  | a :: as =>
    match f a with
    | .error e => .error e
    | .ok b =>
      match mapME f as with
      | .error e => .error e
      | .ok bs => .ok (b :: bs)

/-- Embeds one `for row in db.select(...)` accumulation loop of the
minimum-energy selection cell: it builds the list of
`(row.name, energy-per-atom)` pairs for one formula unit. -/
def collectFU (db : List DbRow) (fu : String) : Except PyErr (List (String × ℚ)) :=
  mapME (fun r => (epa db r).map (fun e => (r.name, e))) (selectFU db fu)

/-- Insertion step of a stable ascending sort by the second (energy)
component: the new element goes in front of the first element whose key
is not smaller, so that elements with equal keys keep their original
relative order. -/
def insertByEnergy (x : String × ℚ) : List (String × ℚ) → List (String × ℚ)
  | [] => [x]
  | y :: ys => if y.2 < x.2 then y :: insertByEnergy x ys else x :: y :: ys

/-- Embeds `lst.sort(key=lambda x: x[1])` of the selection cell.  Python
`list.sort` is a stable ascending sort by the key; a stable sort by a
fixed key is unique as a function, so this stable insertion sort is
extensionally the same function as the source call. -/
def sortByEnergy : List (String × ℚ) → List (String × ℚ)
  | [] => []
  | x :: xs => insertByEnergy x (sortByEnergy xs)

/-- Embeds one block of the minimum-energy selection cell
(collect pairs, sort by energy, take element `[0][0]`): it returns the
name appended to `names` for one formula unit, or the Python exception
the block raises (`IndexError` when the sorted list is empty). -/
def blockFU (db : List DbRow) (fu : String) : Except PyErr String :=
  match collectFU db fu with
  | .error e => .error e
  | .ok pairs =>
    match sortByEnergy pairs with
    | [] => .error .indexError
    | p :: _ => .ok p.1

/-- Embeds the whole minimum-energy selection cell of the notebook: the
three blocks run in source order (Au3Cu1, then Au1Cu1, then Au1Cu3) and
the `names` list collects their results; any exception aborts the cell. -/
def minEnergyNames (db : List DbRow) : Except PyErr (List String) :=
  match blockFU db "Au3Cu1" with
  | .error e => .error e
  | .ok n1 =>
    match blockFU db "Au1Cu1" with
    | .error e => .error e
    | .ok n2 =>
      match blockFU db "Au1Cu3" with
      | .error e => .error e
      | .ok n3 => .ok [n1, n2, n3]

/-- The name `n` is the name of a row of the queried selection whose final
energy per atom is defined and minimal over the whole selection. -/
def rowMinimalFor (db : List DbRow) (fu : String) (n : String) : Prop :=
  ∃ r ∈ selectFU db fu, r.name = n ∧
    ∃ e, epa db r = .ok e ∧
      ∀ r' ∈ selectFU db fu, ∀ e', epa db r' = .ok e' → e ≤ e'

/-- External-call events emitted by the relaxation loop of the
`Running calculations on generated structures` cell, in loop order. -/
inductive LoopEvent where
  | relax (rowId : ℕ) (calcName optName filterName : String) (fmax : ℚ)
  | updateDbCall (uidInitial : ℕ) (dbName : String)

/-- Modelled from the spec: `db.select(converged=False)` returns, in
database order, the rows whose `converged` key-value pair is `False`. -/
def relaxSelect (db : List DbRow) : List DbRow :=
  db.filter (fun r => r.converged == false)

/-- Embeds the relaxation loop of the notebook as its trace of external
calls: for each selected row, one relaxation of the row with the `EMT`
calculator via `BFGS` on a `UnitCellFilter` run to `fmax=0.02`, followed
by one `update_db(uid_initial=row.id, ..., db_name=db_name)` call. -/
def relaxLoopEvents (db : List DbRow) : List LoopEvent :=
  (relaxSelect db).flatMap (fun r =>
    [.relax r.id "EMT" "BFGS" "UnitCellFilter" (2/100),
     .updateDbCall r.id "aucu_script.db"])

/-- Modelled from the spec: `clease.tools.update_db` updates the
key-value pairs of the initial-structure entry with the given id (it is
marked converged and linked to its final structure) and adds the final
structure as a new row; rows with other ids are untouched. -/

def update_db (uid : ℕ) (finalRow : DbRow) (db : List DbRow) : List DbRow :=
  (db.map fun r =>
    if r.id == uid then
      { r with converged := true, final_struct_id := finalRow.id }
    else r) ++ [finalRow]

/-- Embeds the database effect of the relaxation loop: the rows selected
at loop entry are processed in order, each `update_db` call receiving
that row's id.  `mkFinal` abstracts the external relaxation result (the
final structure row produced by EMT/BFGS for a given initial row). -/
def relaxLoopRun (db : List DbRow) (mkFinal : DbRow → DbRow) : List DbRow :=
  (relaxSelect db).foldl (fun acc r => update_db r.id (mkFinal r) acc) db

/-- The id argument of an `update_db` event, if any. -/
def updateUidOf : LoopEvent → Option ℕ
  | .updateDbCall u _ => some u
  | _ => none

/-- Index of the minimum of a rational list, first occurrence winning.
Modelled from the spec: `numpy.ndarray.argmin` as called on the
cross-validation scores (`cvs.argmin()`) returns the index of the first
occurrence of the minimum value. -/
def npArgmin : List ℚ → ℕ
  | [] => 0
  | [_] => 0
  | x :: y :: ys =>
    if (y :: ys).getD (npArgmin (y :: ys)) 0 < x then npArgmin (y :: ys) + 1
    else 0

/-- External-call events of the `Evaluation of the CE model` cell. -/
inductive EvalEvent where
  | evaluateInit (fittingScheme scoringScheme : String) (nsplits : ℕ)
  | alphaCVCall (alphaMin alphaMax : ℚ) (numAlpha : ℕ)
  | plotCall (kind : String)
  | setScheme (fittingScheme : String) (alpha : ℚ)
  | fitCall
  | getEciCall
  | printEciDict
  | saveEciCall (fname : String)

/-- Embeds the evaluation cell of the notebook as its trace of external
calls, in source order, given the `alphas` and `cvs` arrays that the
external `eva.alpha_CV(alpha_min=1E-7, alpha_max=1.0, num_alpha=50)`
call returned.  The alpha of the final fit is `alphas[cvs.argmin()]`. -/
def evaluateCellTrace (alphas cvs : List ℚ) : List EvalEvent :=
  [ .evaluateInit "l1" "k-fold" 10,
    .alphaCVCall (1/10000000) 1 50,
    .plotCall "cv",
    .setScheme "l1" (alphas.getD (npArgmin cvs) 0),
    .fitCall,
    .getEciCall,
    .plotCall "fit",
    .plotCall "convex_hull",
    .plotCall "eci",
    .printEciDict,
    .saveEciCall "cluster_name_eci_l1.json" ]

/-- Shallow syntax of the Python expressions occurring in the notebook.
Keyword arguments are embedded positionally. -/
inductive PyExpr where
  | nameRef (x : String)
  | strLit (s : String)
  | numLit (q : ℚ)
  | boolLit (b : Bool)
  | noneLit
  | callFn (fn : String) (args : List PyExpr)
  | methodCall (obj : PyExpr) (m : String) (args : List PyExpr)
  | attr (obj : PyExpr) (fld : String)
  | subscript (obj idx : PyExpr)
  | binop (op : String) (a b : PyExpr)
  | tupleE (elems : List PyExpr)
  | listE (elems : List PyExpr)
  | lamE (param : String) (body : PyExpr)

/-- Shallow syntax of the Python statements occurring in the notebook.
The constructors `tryExcept`, `threadSpawn` and `awaitExpr` exist so that
their absence from the embedded program is a meaningful statement. -/
inductive PyStmt where
  | imprt (modName : String) (names : List String)
  | assign (targets : List String) (rhs : PyExpr)
  | augDiv (target : String) (rhs : PyExpr)
  | exprStmt (e : PyExpr)
  | forIn (v : String) (iter : PyExpr) (body : List PyStmt)
  | withStmt (ctx : PyExpr) (v : String) (body : List PyStmt)
  | tryExcept (body : List PyStmt) (handlers : List PyStmt) (orelse : List PyStmt)
  | shellCmd (cmd : String)
  | magicCmd (cmd : String)
  | threadSpawn (e : PyExpr)
  | awaitExpr (e : PyExpr)

/-- Qualified name of a method call whose receiver is a plain variable. -/
def recvPrefix : PyExpr → String
  | .nameRef x => x ++ "."
  | _ => ""

mutual

/-- External-call names performed when evaluating an expression, in
evaluation order (arguments before the call itself, as in Python).
A lambda body is not evaluated where the lambda is written. -/
def exprCalls : PyExpr → List String
  | .nameRef _ => []
  | .strLit _ => []
  | .numLit _ => []
  | .boolLit _ => []
  | .noneLit => []
  | .callFn fn args => exprListCalls args ++ [fn]
  | .methodCall obj m args =>
    exprCalls obj ++ exprListCalls args ++ [recvPrefix obj ++ m]
  | .attr obj _ => exprCalls obj
  | .subscript a i => exprCalls a ++ exprCalls i
  | .binop _ a b => exprCalls a ++ exprCalls b
  | .tupleE es => exprListCalls es
  | .listE es => exprListCalls es
  | .lamE _ _ => []

def exprListCalls : List PyExpr → List String
  | [] => []
  | e :: es => exprCalls e ++ exprListCalls es

end

mutual

/-- External-call names performed by a statement, in program order; a
loop body is traversed once. -/
def stmtCalls : PyStmt → List String
  | .imprt _ _ => []
  | .assign _ rhs => exprCalls rhs
  | .augDiv _ rhs => exprCalls rhs
  | .exprStmt e => exprCalls e
  | .forIn _ iter body => exprCalls iter ++ stmtListCalls body
  | .withStmt ctx _ body => exprCalls ctx ++ stmtListCalls body
  | .tryExcept b h o => stmtListCalls b ++ stmtListCalls h ++ stmtListCalls o
  | .shellCmd _ => []
  | .magicCmd _ => []
  | .threadSpawn e => exprCalls e
  | .awaitExpr e => exprCalls e

def stmtListCalls : List PyStmt → List String
  | [] => []
  | s :: ss => stmtCalls s ++ stmtListCalls ss

end

mutual

/-- Whether a statement contains a try/except handler anywhere. -/
def stmtHasTry : PyStmt → Bool
  | .tryExcept _ _ _ => true
  | .forIn _ _ b => stmtListHasTry b
  | .withStmt _ _ b => stmtListHasTry b
  | _ => false

def stmtListHasTry : List PyStmt → Bool
  | [] => false
  | s :: ss => stmtHasTry s || stmtListHasTry ss

end

mutual

/-- Whether a statement introduces a concurrency construct (a thread
spawn, an await, or an import of a concurrency module). -/
def stmtConc : PyStmt → Bool
  | .threadSpawn _ => true
  | .awaitExpr _ => true
  | .imprt m _ =>
    m == "threading" || m == "asyncio" || m == "multiprocessing" ||
      m == "concurrent.futures"
  | .forIn _ _ b => stmtListConc b
  | .withStmt _ _ b => stmtListConc b
  | .tryExcept b h o => stmtListConc b || stmtListConc h || stmtListConc o
  | _ => false

def stmtListConc : List PyStmt → Bool
  | [] => false
  | s :: ss => stmtConc s || stmtListConc ss

end

/-- Mode of a file access. -/
inductive FMode where
  | read
  | write
deriving DecidableEq, BEq, Repr

mutual

/-- Named-file accesses performed when evaluating an expression:
`read(f)` and `open(f)` open the file for reading, `settings.save(f)`
and `eva.save_eci(f)` write it. -/
def exprFileEvents : PyExpr → List (String × FMode)
  | .nameRef _ => []
  | .strLit _ => []
  | .numLit _ => []
  | .boolLit _ => []
  | .noneLit => []
  | .callFn fn args =>
    (match fn, args with
     | "read", [.strLit f] => [(f, .read)]
     | "open", [.strLit f] => [(f, .read)]
     | _, _ => []) ++ exprListFileEvents args
  | .methodCall obj m args =>
    exprFileEvents obj ++
      (match m, args with
       | "save", [.strLit f] => [(f, .write)]
       | "save_eci", [.strLit f] => [(f, .write)]
       | _, _ => []) ++ exprListFileEvents args
  | .attr obj _ => exprFileEvents obj
  | .subscript a i => exprFileEvents a ++ exprFileEvents i
  | .binop _ a b => exprFileEvents a ++ exprFileEvents b
  | .tupleE es => exprListFileEvents es
  | .listE es => exprListFileEvents es
  | .lamE _ _ => []

def exprListFileEvents : List PyExpr → List (String × FMode)
  | [] => []
  | e :: es => exprFileEvents e ++ exprListFileEvents es

end

mutual

/-- Named-file accesses performed by a statement, in program order. -/
def stmtFileEvents : PyStmt → List (String × FMode)
  | .imprt _ _ => []
  | .assign _ rhs => exprFileEvents rhs
  | .augDiv _ rhs => exprFileEvents rhs
  | .exprStmt e => exprFileEvents e
  | .forIn _ iter body => exprFileEvents iter ++ stmtListFileEvents body
  | .withStmt ctx _ body => exprFileEvents ctx ++ stmtListFileEvents body
  | .tryExcept b h o =>
    stmtListFileEvents b ++ stmtListFileEvents h ++ stmtListFileEvents o
  | .shellCmd _ => []
  | .magicCmd _ => []
  | .threadSpawn e => exprFileEvents e
  | .awaitExpr e => exprFileEvents e

def stmtListFileEvents : List PyStmt → List (String × FMode)
  | [] => []
  | s :: ss => stmtFileEvents s ++ stmtListFileEvents ss

end

/-- Cell `Specify the concentration ranges of species`: constructs the
`Concentration` object with one FCC basis of Au and Cu. -/
def cell02AST : List PyStmt :=
  [ .imprt "clease.settings" ["Concentration"],
    .assign ["conc"]
      (.callFn "Concentration" [.listE [.listE [.strLit "Au", .strLit "Cu"]]]),
    .exprStmt (.callFn "print" [.strLit "Done"]) ]

/-- Cell printing the equality and lower-bound constraint matrices of
`conc`. -/
def cell04AST : List PyStmt :=
  [ .exprStmt (.callFn "print"
      [.methodCall
        (.strLit "A_eq = \x7b\x7d\nb_eq = \x7b\x7d\nA_lb = \x7b\x7d\nb_lb = \x7b\x7d")
        "format"
        [.attr (.nameRef "conc") "A_eq", .attr (.nameRef "conc") "b_eq",
         .attr (.nameRef "conc") "A_lb", .attr (.nameRef "conc") "b_lb"]]) ]

/-- Cell `Specify CE settings`: constructs `CEBulk` for an FCC lattice,
a = 3.8, supercell_factor 64, max_cluster_dia [7.0, 5.0, 4.5], and saves
the settings to `settings.json`. -/
def cell07AST : List PyStmt :=
  [ .imprt "clease.settings" ["CEBulk"],
    .assign ["db_name"] (.strLit "aucu_script.db"),
    .assign ["settings"]
      (.callFn "CEBulk"
        [.strLit "fcc", .numLit (19/5), .numLit 64, .nameRef "conc",
         .nameRef "db_name", .listE [.numLit 7, .numLit 5, .numLit (9/2)]]),
    .exprStmt (.methodCall (.nameRef "settings") "save" [.strLit "settings.json"]),
    .exprStmt (.callFn "print" [.strLit "Done"]) ]

/-- Shell cell listing the database. -/
def cell09AST : List PyStmt :=
  [ .shellCmd "ase db aucu_script.db -c +name -L 0" ]

/-- Cell viewing the clusters. -/
def cell11AST : List PyStmt :=
  [ .exprStmt (.methodCall (.nameRef "settings") "view_clusters" []) ]

/-- Cell `Generating initial pool of training structures`. -/
def cell14AST : List PyStmt :=
  [ .imprt "clease.structgen" ["NewStructures"],
    .assign ["ns"]
      (.callFn "NewStructures" [.nameRef "settings", .numLit 0, .numLit 10]),
    .exprStmt (.methodCall (.nameRef "ns") "generate_initial_pool" []),
    .exprStmt (.callFn "print" [.strLit "Done"]) ]

/-- Cell generating ten random structures in a 3x3x3 template. -/
def cell16AST : List PyStmt :=
  [ .imprt "clease.structgen" ["NewStructures"],
    .imprt "ase.db" ["connect"],
    .assign ["db"] (.callFn "connect" [.nameRef "db_name"]),
    .assign ["template"]
      (.binop "*"
        (.methodCall
          (.methodCall (.nameRef "db") "get" [.strLit "name=primitive_cell"])
          "toatoms" [])
        (.tupleE [.numLit 3, .numLit 3, .numLit 3])),
    .assign ["ns"]
      (.callFn "NewStructures" [.nameRef "settings", .numLit 1, .numLit 10]),
    .exprStmt (.methodCall (.nameRef "ns") "generate_random_structures"
      [.nameRef "template"]) ]

/-- Shell cell listing the database. -/
def cell17AST : List PyStmt :=
  [ .shellCmd "ase db aucu_script.db -c +name -L 0" ]

/-- Shell cell listing the database with generation and structure type. -/
def cell19AST : List PyStmt :=
  [ .shellCmd "ase db aucu_script.db -c +name,gen,struct_type -L 0" ]

/-- Cell `Running calculations on generated structures`: relaxes every
not-yet-converged row with EMT via BFGS on a UnitCellFilter to
fmax = 0.02 and updates the database once per row. -/
def cell21AST : List PyStmt :=
  [ .imprt "ase.calculators.emt" ["EMT"],
    .imprt "ase.db" ["connect"],
    .imprt "ase.constraints" ["UnitCellFilter"],
    .imprt "ase.optimize" ["BFGS"],
    .imprt "clease.tools" ["update_db"],
    .assign ["calc"] (.callFn "EMT" []),
    .assign ["db"] (.callFn "connect" [.nameRef "db_name"]),
    .forIn "row"
      (.methodCall (.nameRef "db") "select"
        [.binop "kw" (.nameRef "converged") (.boolLit false)])
      [ .exprStmt (.callFn "print"
          [.strLit "Calculating the structure in row ID = \x7brow.id\x7d."]),
        .assign ["atoms"] (.methodCall (.nameRef "row") "toatoms" []),
        .assign ["atoms.calc"] (.nameRef "calc"),
        .assign ["ucf"] (.callFn "UnitCellFilter" [.nameRef "atoms"]),
        .assign ["opt"] (.callFn "BFGS" [.nameRef "ucf", .noneLit]),
        .exprStmt (.methodCall (.nameRef "opt") "run" [.numLit (2/100)]),
        .exprStmt (.callFn "update_db"
          [.attr (.nameRef "row") "id", .nameRef "atoms", .nameRef "db_name"]) ],
    .exprStmt (.callFn "print" [.strLit "Done."]) ]

/-- Shell cell listing the database with final_struct_id. -/
def cell23AST : List PyStmt :=
  [ .shellCmd "ase db aucu_script.db -c +gen,struct_type,final_struct_id -L 0" ]

/-- Cell `Evaluation of the CE model`: scans 50 regularization strengths
with 10-fold cross-validation, refits at the argmin and saves the ECIs. -/
def cell25AST : List PyStmt :=
  [ .magicCmd "matplotlib notebook",
    .imprt "clease" ["Evaluate"],
    .imprt "clease.plot_post_process" ["pp"],
    .imprt "pprint" ["pprint"],
    .assign ["eva"]
      (.callFn "Evaluate"
        [.nameRef "settings", .strLit "l1", .strLit "k-fold", .numLit 10]),
    .assign ["alphas", "cvs"]
      (.methodCall (.nameRef "eva") "alpha_CV"
        [.numLit (1/10000000), .numLit 1, .numLit 50]),
    .exprStmt (.methodCall (.nameRef "pp") "plot_cv" [.nameRef "eva"]),
    .assign ["idx"] (.methodCall (.nameRef "cvs") "argmin" []),
    .assign ["alpha"] (.subscript (.nameRef "alphas") (.nameRef "idx")),
    .exprStmt (.methodCall (.nameRef "eva") "set_fitting_scheme"
      [.strLit "l1", .nameRef "alpha"]),
    .exprStmt (.methodCall (.nameRef "eva") "fit" []),
    .exprStmt (.methodCall (.nameRef "eva") "get_eci" []),
    .exprStmt (.methodCall (.nameRef "pp") "plot_fit" [.nameRef "eva"]),
    .exprStmt (.methodCall (.nameRef "pp") "plot_convex_hull" [.nameRef "eva"]),
    .exprStmt (.methodCall (.nameRef "pp") "plot_eci" [.nameRef "eva"]),
    .exprStmt (.callFn "pprint"
      [.methodCall (.nameRef "eva") "get_eci_dict" []]),
    .exprStmt (.methodCall (.nameRef "eva") "save_eci"
      [.strLit "cluster_name_eci_l1.json"]) ]

/-- Cell `Generation of probe structures for further training`. -/
def cell27AST : List PyStmt :=
  [ .assign ["ns"]
      (.callFn "NewStructures" [.nameRef "settings", .numLit 10]),
    .exprStmt (.methodCall (.nameRef "ns") "generate_probe_structure" []),
    .exprStmt (.callFn "print" [.strLit "Done"]) ]

/-- Cell running a ground-state search with random composition on a
6x6x6 template, with the ECIs loaded back from the JSON file. -/
def cell29AST : List PyStmt :=
  [ .imprt "json" [],
    .assign ["template"]
      (.binop "*"
        (.methodCall
          (.methodCall (.nameRef "db") "get" [.strLit "name=primitive_cell"])
          "toatoms" [])
        (.tupleE [.numLit 6, .numLit 6, .numLit 6])),
    .withStmt (.callFn "open" [.strLit "cluster_name_eci_l1.json"]) "f"
      [ .assign ["eci"] (.methodCall (.nameRef "json") "load" [.nameRef "f"]) ],
    .assign ["ns"] (.callFn "NewStructures" [.nameRef "settings", .numLit 1]),
    .exprStmt (.methodCall (.nameRef "ns") "generate_gs_structure"
      [.nameRef "template", .nameRef "eci", .numLit 2000, .numLit 1,
       .numLit 10, .numLit 5000, .boolLit true]),
    .exprStmt (.callFn "print" [.strLit "Done"]) ]

/-- Cell reading the three fixed composition templates and viewing them. -/
def cell31AST : List PyStmt :=
  [ .imprt "ase.io" ["read"],
    .imprt "ase.visualize" ["view"],
    .assign ["au3cu"] (.callFn "read" [.strLit "template_au3cu.traj"]),
    .assign ["aucu"] (.callFn "read" [.strLit "template_aucu.traj"]),
    .assign ["aucu3"] (.callFn "read" [.strLit "template_aucu3.traj"]),
    .assign ["template_list"]
      (.listE [.nameRef "au3cu", .nameRef "aucu", .nameRef "aucu3"]),
    .exprStmt (.callFn "view" [.nameRef "template_list"]) ]

/-- Cell running the ground-state search on the three fixed templates,
with the ECIs loaded back from the JSON file. -/
def cell32AST : List PyStmt :=
  [ .imprt "json" [],
    .withStmt (.callFn "open" [.strLit "cluster_name_eci_l1.json"]) "f"
      [ .assign ["eci"] (.methodCall (.nameRef "json") "load" [.nameRef "f"]) ],
    .assign ["ns"] (.callFn "NewStructures" [.nameRef "settings", .numLit 3]),
    .exprStmt (.methodCall (.nameRef "ns") "generate_gs_structure"
      [.nameRef "template_list", .nameRef "eci", .numLit 2000, .numLit 1,
       .numLit 10, .numLit 5000, .boolLit false]),
    .exprStmt (.callFn "print" [.strLit "Done"]) ]

/-- Cell `Checking the stable ordered phases`: reads and views the three
provided XYZ structures. -/
def cell35AST : List PyStmt :=
  [ .imprt "ase.visualize" ["view"],
    .imprt "ase.io" ["read"],
    .assign ["struct"] (.listE []),
    .exprStmt (.methodCall (.nameRef "struct") "append"
      [.callFn "read" [.strLit "Au3Cu1.xyz"]]),
    .exprStmt (.methodCall (.nameRef "struct") "append"
      [.callFn "read" [.strLit "Au1Cu1.xyz"]]),
    .exprStmt (.methodCall (.nameRef "struct") "append"
      [.callFn "read" [.strLit "Au1Cu3.xyz"]]),
    .exprStmt (.callFn "view" [.nameRef "struct"]) ]

/-- Statements of one accumulation block of the minimum-energy selection
cell, parameterised by the formula unit. -/
def selBlockAST (listName : String) (query : String) : List PyStmt :=
  [ .assign [listName] (.listE []),
    .forIn "row"
      (.methodCall (.nameRef "db") "select" [.strLit query])
      [ .assign ["energy"]
          (.attr
            (.methodCall (.nameRef "db") "get"
              [.binop "kw" (.nameRef "id") (.attr (.nameRef "row") "final_struct_id")])
            "energy"),
        .augDiv "energy" (.attr (.nameRef "row") "natoms"),
        .exprStmt (.methodCall (.nameRef listName) "append"
          [.tupleE [.attr (.nameRef "row") "name", .nameRef "energy"]]) ],
    .exprStmt (.methodCall (.nameRef listName) "sort"
      [.lamE "x" (.subscript (.nameRef "x") (.numLit 1))]),
    .exprStmt (.methodCall (.nameRef "names") "append"
      [.subscript (.subscript (.nameRef listName) (.numLit 0)) (.numLit 0)]) ]

/-- Cell finding and viewing the minimum energy structures.  Its three
blocks are embedded semantically by `minEnergyNames`. -/
def cell37AST : List PyStmt :=
  [ .assign ["names"] (.listE []) ] ++
  selBlockAST "Au3Cu1" "formula_unit=Au3Cu1,struct_type=initial" ++
  selBlockAST "Au1Cu1" "formula_unit=Au1Cu1,struct_type=initial" ++
  selBlockAST "Au1Cu3" "formula_unit=Au1Cu3,struct_type=initial" ++
  [ .exprStmt (.callFn "print" [.nameRef "names"]),
    .assign ["images"] (.listE []),
    .forIn "name" (.nameRef "names")
      [ .assign ["atoms"]
          (.methodCall
            (.methodCall (.nameRef "db") "get"
              [.methodCall (.strLit "name=\x7b\x7d,struct_type=initial")
                "format" [.nameRef "name"]])
            "toatoms" []),
        .exprStmt (.methodCall (.nameRef "images") "append" [.nameRef "atoms"]) ],
    .exprStmt (.callFn "view" [.nameRef "images"]) ]

/-- The last code cell of the notebook is empty. -/
def cell39AST : List PyStmt := []

/-- The code cells of the notebook, in notebook order.  The `names` list
initialisation of the selection cell is placed at the head of
`cell37AST`; in the source it comes directly after the `Au3Cu1 = []`
initialisation, which makes no difference to any trace considered
here. -/
def notebookCells : List (List PyStmt) :=
  [ cell02AST, cell04AST, cell07AST, cell09AST, cell11AST, cell14AST,
    cell16AST, cell17AST, cell19AST, cell21AST, cell23AST, cell25AST,
    cell27AST, cell29AST, cell31AST, cell32AST, cell35AST, cell37AST,
    cell39AST ]

/-- The whole notebook, executed top to bottom, as one statement list. -/
def notebookProgram : List PyStmt := notebookCells.flatten

/-- The workflow stages named by the stage-ordering claim. -/
inductive Stage where
  | concentration
  | structGen
  | relaxation
  | fitting
  | gsSearch
deriving DecidableEq, BEq, Repr

/-- Position of a stage in the workflow order of the specification. -/
def stageRank : Stage → ℕ
  | .concentration => 0
  | .structGen => 1
  | .relaxation => 2
  | .fitting => 3
  | .gsSearch => 4

/-- Which external call names mark which workflow stage: `Concentration`
construction, training-structure generation (`generate_initial_pool` /
`generate_random_structures`), relaxation (the `opt.run` call of the
calculation loop), regression fitting (`eva.fit`), ground-state search
(`generate_gs_structure`). -/
def stageOfCall : String → Option Stage
  | "Concentration" => some .concentration
  | "ns.generate_initial_pool" => some .structGen
  | "ns.generate_random_structures" => some .structGen
  | "opt.run" => some .relaxation
  | "eva.fit" => some .fitting
  | "ns.generate_gs_structure" => some .gsSearch
  | _ => none

/-- The stage occurrences of the notebook, in execution order. -/
def stagesTrace : List Stage :=
  (stmtListCalls notebookProgram).filterMap stageOfCall

/-- All five workflow stages. -/
def allStages : List Stage :=
  [.concentration, .structGen, .relaxation, .fitting, .gsSearch]

/-- Checks that whenever a stage occurs, every stage of strictly smaller
rank has already occurred earlier in the trace. -/
def stageOrderOkAux : List Stage → List Stage → Bool
  | _, [] => true
  | seen, s :: rest =>
    (allStages.all fun t => decide (stageRank t < stageRank s) → seen.contains t) &&
      stageOrderOkAux (s :: seen) rest

/-- Checks the whole trace starting from nothing seen. -/
def stageOrderOk (l : List Stage) : Bool := stageOrderOkAux [] l

/-- The external call sites of the notebook, top to bottom. -/
def callSites : List String := stmtListCalls notebookProgram

/-- Runs a list of external call sites in order against an oracle `ext`
giving the outcome of the `n`-th dynamic call: the first failure aborts
the run and its error is returned unmodified, since the program has no
handler. -/
def runCallsAux (ext : ℕ → String → Except PyErr Unit) :
    ℕ → List String → Except PyErr Unit
  | _, [] => .ok ()
  | n, s :: rest =>
    match ext n s with
    | .error e => .error e
    | .ok _ => runCallsAux ext (n + 1) rest

/-- Observable behaviour of the notebook against an external-call
oracle. -/
def runCalls (ext : ℕ → String → Except PyErr Unit) : Except PyErr Unit :=
  runCallsAux ext 0 callSites

/-- Sequential cell-by-cell evaluation: each cell's call sites run to
completion before the next cell starts. -/
def seqRunCells (ext : ℕ → String → Except PyErr Unit) :
    ℕ → List (List PyStmt) → Except PyErr Unit
  | _, [] => .ok ()
  | n, c :: cs =>
    match runCallsAux ext n (stmtListCalls c) with
    | .error e => .error e
    | .ok _ => seqRunCells ext (n + (stmtListCalls c).length) cs

/-- All named-file accesses of the notebook, in program order. -/
def notebookFileEvents : List (String × FMode) :=
  stmtListFileEvents notebookProgram

/-- The geometry files used as fixed templates for the three target
compositions. -/
def templateFiles : List String :=
  [ "template_au3cu.traj", "template_aucu.traj", "template_aucu3.traj",
    "Au3Cu1.xyz", "Au1Cu1.xyz", "Au1Cu3.xyz" ]

/-- One `generate_gs_structure` invocation: the atoms argument (as
abstract geometry blobs), the eci dictionary argument, and the
`random_composition` flag. -/
structure GsCall where
  atoms : List String
  eci : List (String × ℚ)
  randomComposition : Bool

/-- The file-system and call-record state threaded through the workflow
stages that exchange artifacts through files: JSON files hold
cluster-name-to-coefficient mappings, geometry files hold abstract
geometry blobs; `gsCalls` records the arguments of every ground-state
search call and `viewedGeom` the geometry lists passed to `view`. -/
structure World where
  jsonFiles : List (String × List (String × ℚ))
  geomFiles : List (String × String)
  gsCalls : List GsCall
  viewedGeom : List (List String)

/-- The JSON file name used by the evaluation and ground-state cells. -/
def eciFileName : String := "cluster_name_eci_l1.json"

/-- Modelled from the spec: `json.load` on an opened file returns the
mapping last written to that file; a missing file raises
`FileNotFoundError` at `open`. -/
def jsonRead (w : World) (f : String) : Except PyErr (List (String × ℚ)) :=
  match w.jsonFiles.find? (fun p => p.1 == f) with
  | some p => .ok p.2
  | none => .error .fileNotFoundError

/-- Modelled from the spec: `ase.io.read` returns the geometry stored in
the named file; a missing file raises `FileNotFoundError`. -/
def geomRead (w : World) (f : String) : Except PyErr String :=
  match w.geomFiles.find? (fun p => p.1 == f) with
  | some p => .ok p.2
  | none => .error .fileNotFoundError

/-- Modelled from the spec: `eva.save_eci(fname=...)` writes the fitted
mapping from cluster-name strings to coefficient values to the JSON
file, replacing any earlier content. -/
def saveEciW (E : List (String × ℚ)) (w : World) : World :=
  { w with jsonFiles := (eciFileName, E) :: w.jsonFiles }

/-- Records one `generate_gs_structure` call with its arguments. -/
def recordGs (w : World) (a : List String) (eci : List (String × ℚ))
    (rc : Bool) : World :=
  { w with gsCalls := w.gsCalls ++ [⟨a, eci, rc⟩] }

/-- Records one `view` call on a list of geometries. -/
def recordView (w : World) (v : List String) : World :=
  { w with viewedGeom := w.viewedGeom ++ [v] }

/-- The file-mediated effects of the notebook cells from the evaluation
cell to the phase-checking cell, in notebook order: the evaluation cell
saves the ECIs (`eva.save_eci`), the first ground-state cell re-loads
them and searches with random composition on a database template, the
template cell reads the three fixed `.traj` templates and views them,
the second ground-state cell re-loads the ECIs and searches on those
templates, and the phase-checking cell reads and views the three
provided `.xyz` structures.  `E` is the ECI dictionary the external
`eva.get_eci_dict()` produced. -/
def runNotebookWorld (E : List (String × ℚ)) (w0 : World) :
    Except PyErr World := do
  let w1 := saveEciW E w0
  let eci1 ← jsonRead w1 eciFileName
  let w2 := recordGs w1 ["primitive_cell_6x6x6"] eci1 true
  let a1 ← geomRead w2 "template_au3cu.traj"
  let a2 ← geomRead w2 "template_aucu.traj"
  let a3 ← geomRead w2 "template_aucu3.traj"
  let w3 := recordView w2 [a1, a2, a3]
  let eci2 ← jsonRead w3 eciFileName
  let w4 := recordGs w3 [a1, a2, a3] eci2 false
  let s1 ← geomRead w4 "Au3Cu1.xyz"
  let s2 ← geomRead w4 "Au1Cu1.xyz"
  let s3 ← geomRead w4 "Au1Cu3.xyz"
  pure (recordView w4 [s1, s2, s3])

/-- The fields of a database row other than the stored energy. -/
def rowShape (r : DbRow) : ℕ × String × String × String × ℕ × ℕ × Bool :=
  (r.id, r.name, r.formula_unit, r.struct_type, r.natoms, r.final_struct_id,
    r.converged)

/-- Example database: two relaxed Au3Cu1 structures (strA below strB in
energy) and one per remaining composition. -/
def exDb1 : List DbRow :=
  [ ⟨1, "strA", "Au3Cu1", "initial", 4, 11, none, true⟩,
    ⟨2, "strB", "Au3Cu1", "initial", 4, 12, none, true⟩,
    ⟨3, "strC", "Au1Cu1", "initial", 4, 13, none, true⟩,
    ⟨4, "strD", "Au1Cu3", "initial", 4, 14, none, true⟩,
    ⟨11, "finA", "Au3Cu1", "final", 4, 0, some (-8), true⟩,
    ⟨12, "finB", "Au3Cu1", "final", 4, 0, some (-4), true⟩,
    ⟨13, "finC", "Au1Cu1", "final", 4, 0, some (-6), true⟩,
    ⟨14, "finD", "Au1Cu3", "final", 4, 0, some (-5), true⟩ ]

/-- The same database with the two Au3Cu1 energies exchanged. -/
def exDb2 : List DbRow :=
  [ ⟨1, "strA", "Au3Cu1", "initial", 4, 11, none, true⟩,
    ⟨2, "strB", "Au3Cu1", "initial", 4, 12, none, true⟩,
    ⟨3, "strC", "Au1Cu1", "initial", 4, 13, none, true⟩,
    ⟨4, "strD", "Au1Cu3", "initial", 4, 14, none, true⟩,
    ⟨11, "finA", "Au3Cu1", "final", 4, 0, some (-4), true⟩,
    ⟨12, "finB", "Au3Cu1", "final", 4, 0, some (-8), true⟩,
    ⟨13, "finC", "Au1Cu1", "final", 4, 0, some (-6), true⟩,
    ⟨14, "finD", "Au1Cu3", "final", 4, 0, some (-5), true⟩ ]

/-- Example database with exactly one relaxed structure per target
composition. -/
def exDb3 : List DbRow :=
  [ ⟨1, "wA", "Au3Cu1", "initial", 1, 11, none, true⟩,
    ⟨2, "wB", "Au1Cu1", "initial", 1, 12, none, true⟩,
    ⟨3, "wC", "Au1Cu3", "initial", 1, 13, none, true⟩,
    ⟨11, "fA", "Au3Cu1", "final", 1, 0, some (-3), true⟩,
    ⟨12, "fB", "Au1Cu1", "final", 1, 0, some (-2), true⟩,
    ⟨13, "fC", "Au1Cu3", "final", 1, 0, some (-1), true⟩ ]

/-- Example database for the relaxation loop: one not-yet-converged and
one converged row. -/
def exDb4 : List DbRow :=
  [ ⟨1, "x1", "Au3Cu1", "initial", 1, 0, none, false⟩,
    ⟨2, "x2", "Au3Cu1", "initial", 1, 0, none, true⟩ ]

/-- Example ECI dictionary. -/
def exEci : List (String × ℚ) := [("c0", 1), ("c1_1nn", -2)]

/-- Example initial world: no JSON file yet, all six template geometry
files present. -/
def exWorld0 : World :=
  { jsonFiles := [],
    geomFiles :=
      [ ("template_au3cu.traj", "g1"), ("template_aucu.traj", "g2"),
        ("template_aucu3.traj", "g3"), ("Au3Cu1.xyz", "g4"),
        ("Au1Cu1.xyz", "g5"), ("Au1Cu3.xyz", "g6") ],
    gsCalls := [],
    viewedGeom := [] }

/-- Example alpha grid returned by the external scan. -/
def exAlphas : List ℚ := List.replicate 50 0

/-- Example cross-validation scores returned by the external scan. -/
def exCvs : List ℚ := List.replicate 50 0

/-- C9 (witness): the selection cell on a database holding one relaxed
structure per target composition. -/

theorem mem_insertByEnergy {a x : String × ℚ} {l : List (String × ℚ)} :
    a ∈ insertByEnergy x l ↔ a = x ∨ a ∈ l := by
  induction l with
  | nil => simp [insertByEnergy]
  | cons y ys ih =>
    by_cases h : y.2 < x.2
    · simp only [insertByEnergy, if_pos h, List.mem_cons, ih]
      tauto
    · simp only [insertByEnergy, if_neg h, List.mem_cons]

theorem mem_sortByEnergy {a : String × ℚ} {l : List (String × ℚ)} :
    a ∈ sortByEnergy l ↔ a ∈ l := by
  induction l with
  | nil => simp [sortByEnergy]
  | cons x xs ih => simp [sortByEnergy, mem_insertByEnergy, ih]

theorem sortByEnergy_eq_nil_iff {l : List (String × ℚ)} :
    sortByEnergy l = [] ↔ l = [] := by
  cases l with
  | nil => simp [sortByEnergy]
  | cons x xs =>
    simp only [sortByEnergy]
    constructor
    · intro h
      rcases hs : sortByEnergy xs with _ | ⟨y, ys⟩
      · rw [hs] at h
        simp [insertByEnergy] at h
      · rw [hs] at h
        by_cases hc : y.2 < x.2 <;> simp [insertByEnergy, hc] at h
    · intro h
      cases h

theorem pairwise_insertByEnergy {x : String × ℚ} {l : List (String × ℚ)}
    (hl : l.Pairwise (fun p q => p.2 ≤ q.2)) :
    (insertByEnergy x l).Pairwise (fun p q => p.2 ≤ q.2) := by
  induction l with
  | nil => simp [insertByEnergy]
  | cons y ys ih =>
    rcases List.pairwise_cons.mp hl with ⟨hy, hys⟩
    by_cases h : y.2 < x.2
    · simp only [insertByEnergy, if_pos h]
      refine List.pairwise_cons.mpr ⟨?_, ih hys⟩
      intro a ha
      rcases mem_insertByEnergy.mp ha with rfl | ha'
      · exact le_of_lt h
      · exact hy a ha'
    · simp only [insertByEnergy, if_neg h]
      refine List.pairwise_cons.mpr ⟨?_, hl⟩
      intro a ha
      rcases List.mem_cons.mp ha with rfl | ha'
      · exact le_of_not_lt h
      · exact le_trans (le_of_not_lt h) (hy a ha')

theorem pairwise_sortByEnergy (l : List (String × ℚ)) :
    (sortByEnergy l).Pairwise (fun p q => p.2 ≤ q.2) := by
  induction l with
  | nil => simp [sortByEnergy]
  | cons x xs ih => exact pairwise_insertByEnergy ih

/-- The head of the sorted pair list has minimal energy among all pairs. -/
theorem sortByEnergy_head_min {l : List (String × ℚ)} {p : String × ℚ}
    {rest : List (String × ℚ)} (h : sortByEnergy l = p :: rest) :
    ∀ q ∈ l, p.2 ≤ q.2 := by
  intro q hq
  have hq' : q ∈ sortByEnergy l := mem_sortByEnergy.mpr hq
  rw [h] at hq'
  rcases List.mem_cons.mp hq' with rfl | hq''
  · exact le_refl _
  · have := pairwise_sortByEnergy l
    rw [h] at this
    exact (List.pairwise_cons.mp this).1 q hq''

/-- A successful block returns the first component of a collected pair of
minimal energy. -/
theorem blockFU_spec {db : List DbRow} {fu : String} {n : String}
    (h : blockFU db fu = .ok n) :
    ∃ pairs, collectFU db fu = .ok pairs ∧
      ∃ p ∈ pairs, p.1 = n ∧ ∀ q ∈ pairs, p.2 ≤ q.2 := by
  unfold blockFU at h
  rcases hc : collectFU db fu with e | pairs
  · rw [hc] at h
    dsimp only at h
    cases h
  · rw [hc] at h
    dsimp only at h
    rcases hs : sortByEnergy pairs with _ | ⟨p, rest⟩
    · rw [hs] at h
      cases h
    · rw [hs] at h
      refine ⟨pairs, rfl, p, ?_, ?_, sortByEnergy_head_min hs⟩
      · exact mem_sortByEnergy.mp (hs ▸ List.mem_cons_self p rest)
      · cases h
        rfl

/-- A successful `mapME` puts the input and output lists in pointwise
`.ok` correspondence, in both directions. -/
theorem mapME_ok_corr {f : α → Except PyErr β} {l : List α} {l' : List β}
    (h : mapME f l = .ok l') :
    (∀ b ∈ l', ∃ a ∈ l, f a = .ok b) ∧ (∀ a ∈ l, ∃ b ∈ l', f a = .ok b) := by
  induction l generalizing l' with
  | nil =>
    unfold mapME at h
    cases h
    simp
  | cons a as ih =>
    unfold mapME at h
    rcases hfa : f a with e | b
    · rw [hfa] at h
      cases h
    · rw [hfa] at h
      rcases hrest : mapME f as with e | bs
      · rw [hrest] at h
        cases h
      · rw [hrest] at h
        cases h
        rcases ih hrest with ⟨fwd, bwd⟩
        constructor
        · intro b' hb'
          rcases List.mem_cons.mp hb' with rfl | hb''
          · exact ⟨a, List.mem_cons_self _ _, hfa⟩
          · rcases fwd b' hb'' with ⟨a', ha', hfa'⟩
            exact ⟨a', List.mem_cons_of_mem _ ha', hfa'⟩
        · intro a' ha'
          rcases List.mem_cons.mp ha' with rfl | ha''
          · exact ⟨b, List.mem_cons_self _ _, hfa⟩
          · rcases bwd a' ha'' with ⟨b', hb', hfb'⟩
            exact ⟨b', List.mem_cons_of_mem _ hb', hfb'⟩

theorem blockFU_rowMinimal {db : List DbRow} {fu : String} {n : String}
    (h : blockFU db fu = .ok n) : rowMinimalFor db fu n := by
  rcases blockFU_spec h with ⟨pairs, hc, p, hp, hpn, hmin⟩
  rcases mapME_ok_corr hc with ⟨fwd, bwd⟩
  rcases fwd p hp with ⟨r, hr, hfr⟩
  refine ⟨r, hr, ?_, p.2, ?_, ?_⟩
  · rcases hepa : epa db r with e | v
    · rw [hepa] at hfr
      cases hfr
    · rw [hepa] at hfr
      cases hfr
      exact hpn
  · rcases hepa : epa db r with e | v
    · rw [hepa] at hfr
      cases hfr
    · rw [hepa] at hfr
      cases hfr
      rfl
  · intro r' hr' e' hepa'
    rcases bwd r' hr' with ⟨q, hq, hfq⟩
    rw [hepa'] at hfq
    cases hfq
    exact hmin _ hq

theorem relaxLoopEvents_updateUids (db : List DbRow) :
    (relaxLoopEvents db).filterMap updateUidOf
      = (relaxSelect db).map (fun r => r.id) := by
  unfold relaxLoopEvents
  induction relaxSelect db with
  | nil => rfl
  | cons r rs ih => simp [List.filterMap_cons, updateUidOf, ih]

theorem relaxLoopEvents_relax_params (db : List DbRow) :
    ∀ i c o fl fm, LoopEvent.relax i c o fl fm ∈ relaxLoopEvents db →
      c = "EMT" ∧ o = "BFGS" ∧ fl = "UnitCellFilter" ∧ fm = 2/100 ∧
        ∃ r ∈ relaxSelect db, r.id = i := by
  intro i c o fl fm hmem
  unfold relaxLoopEvents at hmem
  rcases List.mem_flatMap.mp hmem with ⟨r, hr, hev⟩
  rcases List.mem_cons.mp hev with h1 | h2
  · cases h1
    exact ⟨rfl, rfl, rfl, rfl, r, hr, rfl⟩
  · rcases List.mem_cons.mp h2 with h3 | h4
    · cases h3
    · cases h4

theorem relaxLoopEvents_updateDb_dbname (db : List DbRow) :
    ∀ u s, LoopEvent.updateDbCall u s ∈ relaxLoopEvents db →
      s = "aucu_script.db" ∧ ∃ r ∈ relaxSelect db, r.id = u := by
  intro u s hmem
  unfold relaxLoopEvents at hmem
  rcases List.mem_flatMap.mp hmem with ⟨r, hr, hev⟩
  rcases List.mem_cons.mp hev with h1 | h2
  · cases h1
  · rcases List.mem_cons.mp h2 with h3 | h4
    · cases h3
      exact ⟨rfl, r, hr, rfl⟩
    · cases h4

theorem update_db_preserves_other {c : DbRow} {db : List DbRow} {uid : ℕ}
    {fr : DbRow} (hc : c ∈ db) (hne : c.id ≠ uid) :
    c ∈ update_db uid fr db := by
  unfold update_db
  refine List.mem_append_left _ ?_
  have : (fun r => if r.id == uid then
      { r with converged := true, final_struct_id := fr.id } else r) c = c := by
    simp [hne]
  exact this ▸ List.mem_map_of_mem _ hc

theorem foldl_update_db_preserves {c : DbRow} :
    ∀ (sel : List DbRow) (acc : List DbRow) (mkFinal : DbRow → DbRow),
      c ∈ acc → (∀ s ∈ sel, s.id ≠ c.id) →
      c ∈ sel.foldl (fun acc r => update_db r.id (mkFinal r) acc) acc := by
  intro sel
  induction sel with
  | nil => intro acc mkFinal hc _; exact hc
  | cons s ss ih =>
    intro acc mkFinal hc hids
    simp only [List.foldl_cons]
    refine ih _ _ ?_ ?_
    · exact update_db_preserves_other hc
        (fun h => hids s (List.mem_cons_self _ _) h.symm)
    · intro t ht
      exact hids t (List.mem_cons_of_mem _ ht)

theorem npArgmin_lt_length : ∀ (l : List ℚ), l ≠ [] → npArgmin l < l.length := by
  intro l
  induction l with
  | nil => intro h; cases h rfl
  | cons x xs ih =>
    intro _
    cases xs with
    | nil => simp [npArgmin]
    | cons y ys =>
      by_cases h : (y :: ys).getD (npArgmin (y :: ys)) 0 < x
      · simp only [npArgmin, if_pos h, List.length_cons]
        exact Nat.succ_lt_succ (ih (by simp))
      · simp only [npArgmin, if_neg h, List.length_cons]
        exact Nat.succ_pos _

theorem npArgmin_min : ∀ (l : List ℚ) (j : ℕ), j < l.length →
    l.getD (npArgmin l) 0 ≤ l.getD j 0 := by
  intro l
  induction l with
  | nil => intro j hj; simp at hj
  | cons x xs ih =>
    intro j hj
    cases xs with
    | nil =>
      cases j with
      | zero => simp [npArgmin]
      | succ k =>
        simp only [List.length_cons, List.length_nil] at hj
        omega
    | cons y ys =>
      by_cases h : (y :: ys).getD (npArgmin (y :: ys)) 0 < x
      · simp only [npArgmin, if_pos h]
        cases j with
        | zero => simpa using le_of_lt h
        | succ k =>
          simp only [List.getD_cons_succ]
          exact ih k (Nat.lt_of_succ_lt_succ hj)
      · simp only [npArgmin, if_neg h]
        cases j with
        | zero => simp
        | succ k =>
          simp only [List.getD_cons_zero, List.getD_cons_succ]
          exact le_trans (le_of_not_lt h) (ih k (Nat.lt_of_succ_lt_succ hj))

theorem jsonRead_saveEciW (E : List (String × ℚ)) (w : World) :
    jsonRead (saveEciW E w) eciFileName = .ok E := by
  simp [jsonRead, saveEciW]

/-- A successful run of the file-mediated cells reads the six template
geometry files from the initial state, records exactly the two
ground-state calls with the saved ECI mapping, appends the two `view`
records, and leaves the geometry files untouched. -/
theorem runNotebookWorld_ok {E : List (String × ℚ)} {w0 w : World}
    (h : runNotebookWorld E w0 = .ok w) :
    ∃ a1 a2 a3 s1 s2 s3,
      geomRead w0 "template_au3cu.traj" = .ok a1 ∧
      geomRead w0 "template_aucu.traj" = .ok a2 ∧
      geomRead w0 "template_aucu3.traj" = .ok a3 ∧
      geomRead w0 "Au3Cu1.xyz" = .ok s1 ∧
      geomRead w0 "Au1Cu1.xyz" = .ok s2 ∧
      geomRead w0 "Au1Cu3.xyz" = .ok s3 ∧
      w = { jsonFiles := (eciFileName, E) :: w0.jsonFiles,
            geomFiles := w0.geomFiles,
            gsCalls := w0.gsCalls ++
              [⟨["primitive_cell_6x6x6"], E, true⟩, ⟨[a1, a2, a3], E, false⟩],
            viewedGeom := w0.viewedGeom ++ [[a1, a2, a3], [s1, s2, s3]] } := by
  simp only [runNotebookWorld, bind, Except.bind, jsonRead, saveEciW, recordGs,
    recordView, geomRead] at h
  simp only [List.find?_cons, beq_self_eq_true] at h
  rcases hg1 : w0.geomFiles.find? (fun p => p.1 == "template_au3cu.traj") with _ | p1
  · rw [hg1] at h
    cases h
  · rw [hg1] at h
    rcases hg2 : w0.geomFiles.find? (fun p => p.1 == "template_aucu.traj") with _ | p2
    · rw [hg2] at h
      cases h
    · rw [hg2] at h
      rcases hg3 : w0.geomFiles.find? (fun p => p.1 == "template_aucu3.traj") with _ | p3
      · rw [hg3] at h
        cases h
      · rw [hg3] at h
        rcases hg4 : w0.geomFiles.find? (fun p => p.1 == "Au3Cu1.xyz") with _ | p4
        · rw [hg4] at h
          cases h
        · rw [hg4] at h
          rcases hg5 : w0.geomFiles.find? (fun p => p.1 == "Au1Cu1.xyz") with _ | p5
          · rw [hg5] at h
            cases h
          · rw [hg5] at h
            rcases hg6 : w0.geomFiles.find? (fun p => p.1 == "Au1Cu3.xyz") with _ | p6
            · rw [hg6] at h
              cases h
            · rw [hg6] at h
              refine ⟨p1.2, p2.2, p3.2, p4.2, p5.2, p6.2, ?_, ?_, ?_, ?_, ?_, ?_, ?_⟩
              · simp [geomRead, hg1]
              · simp [geomRead, hg2]
              · simp [geomRead, hg3]
              · simp [geomRead, hg4]
              · simp [geomRead, hg5]
              · simp [geomRead, hg6]
              · cases h
                simp [List.append_assoc]

theorem stmtListCalls_append (a b : List PyStmt) :
    stmtListCalls (a ++ b) = stmtListCalls a ++ stmtListCalls b := by
  induction a with
  | nil => simp [stmtListCalls]
  | cons s ss ih => simp [stmtListCalls, ih]

theorem runCallsAux_append (ext : ℕ → String → Except PyErr Unit)
    (xs : List String) :
    ∀ (ys : List String) (n : ℕ),
      runCallsAux ext n (xs ++ ys) =
        match runCallsAux ext n xs with
        | .error e => .error e
        | .ok _ => runCallsAux ext (n + xs.length) ys := by
  induction xs with
  | nil => intro ys n; simp [runCallsAux]
  | cons s ss ih =>
    intro ys n
    simp only [List.cons_append, runCallsAux]
    rcases ext n s with e | u
    · rfl
    · dsimp only
      have hih := ih ys (n + 1)
      simp only [List.append_eq] at hih ⊢
      rw [hih]
      simp only [List.length_cons]
      rcases runCallsAux ext (n + 1) ss with e | u2
      · rfl
      · dsimp only
        have harith : n + 1 + ss.length = n + (ss.length + 1) := by omega
        rw [harith]

/-- Running the flattened program equals running the cells one after the
other: the observable behaviour is the sequential evaluation of the
cells in notebook order. -/
theorem runCallsAux_flatten (ext : ℕ → String → Except PyErr Unit) :
    ∀ (cells : List (List PyStmt)) (n : ℕ),
      runCallsAux ext n (stmtListCalls cells.flatten) = seqRunCells ext n cells := by
  intro cells
  induction cells with
  | nil => intro n; simp [stmtListCalls, seqRunCells, runCallsAux]
  | cons c cs ih =>
    intro n
    simp only [List.flatten_cons, seqRunCells]
    rw [stmtListCalls_append, runCallsAux_append]
    rcases runCallsAux ext n (stmtListCalls c) with e | u
    · rfl
    · exact ih (n + (stmtListCalls c).length)

/-- If all call sites before `i` succeed and site `i` fails with `e`,
the whole sequential run returns exactly `e`. -/
theorem runCallsAux_propagates (ext : ℕ → String → Except PyErr Unit)
    (e : PyErr) :
    ∀ (sites : List String) (n i : ℕ), i < sites.length →
      (∀ j, j < i → ext (n + j) (sites.getD j "") = .ok ()) →
      ext (n + i) (sites.getD i "") = .error e →
      runCallsAux ext n sites = .error e := by
  intro sites
  induction sites with
  | nil =>
    intro n i hi _ _
    simp at hi
  | cons s ss ih =>
    intro n i hi hpre hfail
    cases i with
    | zero =>
      simp only [List.getD_cons_zero, Nat.add_zero] at hfail
      simp only [runCallsAux, hfail]
    | succ k =>
      have h0 : ext n s = .ok () := by
        have := hpre 0 (Nat.succ_pos k)
        simpa using this
      simp only [runCallsAux, h0]
      refine ih (n + 1) k (Nat.lt_of_succ_lt_succ hi) ?_ ?_
      · intro j hj
        have := hpre (j + 1) (Nat.succ_lt_succ hj)
        simp only [List.getD_cons_succ] at this
        have harith : n + (j + 1) = n + 1 + j := by omega
        rw [harith] at this
        exact this
      · have harith : n + (k + 1) = n + 1 + k := by omega
        rw [harith] at hfail
        simp only [List.getD_cons_succ] at hfail
        exact hfail

theorem blockFU_of_empty_select {db : List DbRow} {fu : String}
    (h : selectFU db fu = []) : blockFU db fu = .error .indexError := by
  simp [blockFU, collectFU, h, mapME, sortByEnergy]

/-- C1 (counterexample): the claim says the notebook performs no original
computation such as a selection or sorting over the calculation results.
The minimum-energy selection cell refutes this: on two databases whose
rows agree except for the stored energy values, the cell's output
differs, so the cell computes a selection over the calculation results
rather than merely passing parameters, doing file I/O, or plotting. -/
theorem selection_cell_energy_dependence_cx :
    exDb1.map rowShape = exDb2.map rowShape ∧
    minEnergyNames exDb1 = .ok ["strA", "strC", "strD"] ∧
    minEnergyNames exDb2 = .ok ["strB", "strC", "strD"] ∧
    minEnergyNames exDb1 ≠ minEnergyNames exDb2 := by
  have h1 : minEnergyNames exDb1 = .ok ["strA", "strC", "strD"] := by
    norm_num [minEnergyNames, blockFU, collectFU, mapME, selectFU, epa, dbGet,
      sortByEnergy, insertByEnergy, exDb1, Except.map]
  have h2 : minEnergyNames exDb2 = .ok ["strB", "strC", "strD"] := by
    norm_num [minEnergyNames, blockFU, collectFU, mapME, selectFU, epa, dbGet,
      sortByEnergy, insertByEnergy, exDb2, Except.map]
  refine ⟨rfl, h1, h2, ?_⟩
  rw [h1, h2]
  simp

/-- C1 (amended): the notebook's own logic is limited to parameter
passing, file I/O for intermediate artifacts and plotting triggers,
except for the minimum-energy structure selection cell, which for each
target composition sorts the collected (name, energy-per-atom) pairs by
energy and selects the name of a pair of minimal energy per atom. -/
theorem selection_cell_performs_min_selection (db : List DbRow) (fu : String)
    (h : ∃ pairs, collectFU db fu = .ok pairs ∧ pairs ≠ []) :
    ∃ pairs, collectFU db fu = .ok pairs ∧
      ∃ p ∈ pairs, blockFU db fu = .ok p.1 ∧ ∀ q ∈ pairs, p.2 ≤ q.2 := by
  rcases h with ⟨pairs, hc, hne⟩
  rcases hs : sortByEnergy pairs with _ | ⟨p, rest⟩
  · exact absurd (sortByEnergy_eq_nil_iff.mp hs) hne
  · refine ⟨pairs, hc, p, ?_, ?_, sortByEnergy_head_min hs⟩
    · exact mem_sortByEnergy.mp (hs ▸ List.mem_cons_self p rest)
    · simp [blockFU, hc, hs]

/-- C1 (witness): the amended claim applied to the Au3Cu1 block of the
first example database. -/
theorem selection_cell_performs_min_selection_witness :
    ∃ pairs, collectFU exDb1 "Au3Cu1" = .ok pairs ∧
      ∃ p ∈ pairs, blockFU exDb1 "Au3Cu1" = .ok p.1 ∧ ∀ q ∈ pairs, p.2 ≤ q.2 :=
  selection_cell_performs_min_selection exDb1 "Au3Cu1" ⟨_, rfl, by simp⟩

/-- C2: for every mapping saved by `eva.save_eci` to
`cluster_name_eci_l1.json`, the dictionary loaded from that file and
passed as the `eci` argument to `generate_gs_structure` in both
ground-state-search stages equals the saved mapping. -/
theorem eci_json_roundtrip_C2 (E : List (String × ℚ)) (w0 w : World)
    (h : runNotebookWorld E w0 = .ok w) :
    ∃ a2, w.gsCalls = w0.gsCalls ++
      [⟨["primitive_cell_6x6x6"], E, true⟩, ⟨a2, E, false⟩] := by
  rcases runNotebookWorld_ok h with ⟨a1, a2, a3, s1, s2, s3, _, _, _, _, _, _, rfl⟩
  exact ⟨[a1, a2, a3], rfl⟩

/-- C2 (witness): the round trip at a concrete ECI mapping and a world
holding the six template files. -/
theorem eci_json_roundtrip_C2_witness :
    ∃ w, runNotebookWorld exEci exWorld0 = .ok w ∧
      ∃ a2, w.gsCalls = exWorld0.gsCalls ++
        [⟨["primitive_cell_6x6x6"], exEci, true⟩, ⟨a2, exEci, false⟩] :=
  ⟨_, rfl, eci_json_roundtrip_C2 exEci exWorld0 _ rfl⟩

/-- C3: after scanning 50 regularization strengths, the alpha of the
final fit is `alphas[cvs.argmin()]`, whose cross-validation score is
minimal among all scanned values, and the refit (`set_fitting_scheme`
then `fit`) precedes the ECI extraction and save in the cell's trace. -/
theorem evaluation_argmin_refit_C3 (alphas cvs : List ℚ)
    (ha : alphas.length = 50) (hc : cvs.length = 50) :
    npArgmin cvs < 50 ∧
    (∀ j < 50, cvs.getD (npArgmin cvs) 0 ≤ cvs.getD j 0) ∧
    (evaluateCellTrace alphas cvs).get? 0 = some (.evaluateInit "l1" "k-fold" 10) ∧
    (evaluateCellTrace alphas cvs).get? 1 = some (.alphaCVCall (1/10000000) 1 50) ∧
    (evaluateCellTrace alphas cvs).get? 3 =
      some (.setScheme "l1" (alphas.getD (npArgmin cvs) 0)) ∧
    (evaluateCellTrace alphas cvs).get? 4 = some .fitCall ∧
    (evaluateCellTrace alphas cvs).get? 5 = some .getEciCall ∧
    (evaluateCellTrace alphas cvs).get? 10 =
      some (.saveEciCall "cluster_name_eci_l1.json") := by
  have hne : cvs ≠ [] := by
    intro hnil
    rw [hnil] at hc
    simp at hc
  refine ⟨?_, ?_, rfl, rfl, rfl, rfl, rfl, rfl⟩
  · have := npArgmin_lt_length cvs hne
    rw [hc] at this
    exact this
  · intro j hj
    exact npArgmin_min cvs j (by rw [hc]; exact hj)

/-- C3 (witness): the theorem applied to a concrete 50-point scan. -/
theorem evaluation_argmin_refit_C3_witness :
    npArgmin exCvs < 50 ∧
    (∀ j < 50, exCvs.getD (npArgmin exCvs) 0 ≤ exCvs.getD j 0) ∧
    (evaluateCellTrace exAlphas exCvs).get? 0 =
      some (.evaluateInit "l1" "k-fold" 10) ∧
    (evaluateCellTrace exAlphas exCvs).get? 1 =
      some (.alphaCVCall (1/10000000) 1 50) ∧
    (evaluateCellTrace exAlphas exCvs).get? 3 =
      some (.setScheme "l1" (exAlphas.getD (npArgmin exCvs) 0)) ∧
    (evaluateCellTrace exAlphas exCvs).get? 4 = some .fitCall ∧
    (evaluateCellTrace exAlphas exCvs).get? 5 = some .getEciCall ∧
    (evaluateCellTrace exAlphas exCvs).get? 10 =
      some (.saveEciCall "cluster_name_eci_l1.json") :=
  evaluation_argmin_refit_C3 exAlphas exCvs (by simp [exAlphas]) (by simp [exCvs])

/-- C4: the calculation loop selects exactly the rows whose convergence
flag is False; each selected row is relaxed with the EMT calculator via
BFGS on a UnitCellFilter to a force tolerance of 0.02 and `update_db` is
called once per selected row with that row's id and the database name;
rows already marked converged are never selected and their entries stay
unchanged by the loop. -/
theorem relax_loop_C4 (db : List DbRow) (mkFinal : DbRow → DbRow)
    (hids : db.Pairwise (fun a b => a.id ≠ b.id)) :
    ((relaxLoopEvents db).filterMap updateUidOf
       = (relaxSelect db).map (fun r => r.id)) ∧
    (∀ r, r ∈ relaxSelect db ↔ r ∈ db ∧ r.converged = false) ∧
    (∀ i c o fl fm, LoopEvent.relax i c o fl fm ∈ relaxLoopEvents db →
       c = "EMT" ∧ o = "BFGS" ∧ fl = "UnitCellFilter" ∧ fm = 2/100 ∧
         ∃ r ∈ relaxSelect db, r.id = i) ∧
    (∀ u s, LoopEvent.updateDbCall u s ∈ relaxLoopEvents db →
       s = "aucu_script.db" ∧ ∃ r ∈ relaxSelect db, r.id = u) ∧
    (∀ c ∈ db, c.converged = true → c ∈ relaxLoopRun db mkFinal) := by
  refine ⟨relaxLoopEvents_updateUids db, ?_, relaxLoopEvents_relax_params db,
    relaxLoopEvents_updateDb_dbname db, ?_⟩
  · intro r
    simp [relaxSelect, List.mem_filter]
  · intro c hcdb hconv
    refine foldl_update_db_preserves (relaxSelect db) db mkFinal hcdb ?_
    intro s hs
    have hsdb : s ∈ db := (List.mem_filter.mp hs).1
    have hsconv : s.converged = false := by
      have := (List.mem_filter.mp hs).2
      simpa using this
    have hne : s ≠ c := by
      intro he
      rw [he, hconv] at hsconv
      cases hsconv
    exact hids.forall (fun a b hab => hab.symm) hsdb hcdb hne

/-- C4 (witness): the loop on a two-row database with one converged and
one not-yet-converged row. -/
theorem relax_loop_C4_witness :
    ((relaxLoopEvents exDb4).filterMap updateUidOf
       = (relaxSelect exDb4).map (fun r => r.id)) ∧
    (∀ r, r ∈ relaxSelect exDb4 ↔ r ∈ exDb4 ∧ r.converged = false) ∧
    (∀ i c o fl fm, LoopEvent.relax i c o fl fm ∈ relaxLoopEvents exDb4 →
       c = "EMT" ∧ o = "BFGS" ∧ fl = "UnitCellFilter" ∧ fm = 2/100 ∧
         ∃ r ∈ relaxSelect exDb4, r.id = i) ∧
    (∀ u s, LoopEvent.updateDbCall u s ∈ relaxLoopEvents exDb4 →
       s = "aucu_script.db" ∧ ∃ r ∈ relaxSelect exDb4, r.id = u) ∧
    (∀ c ∈ exDb4, c.converged = true → c ∈ relaxLoopRun exDb4 (fun r => r)) :=
  relax_loop_C4 exDb4 (fun r => r)
    (by simp [exDb4, List.pairwise_cons])

/-- C5: the notebook contains no exception handler, so if every external
call before the `i`-th succeeds and the `i`-th raises `e`, the whole run
surfaces exactly `e`, unmodified. -/
theorem no_error_handler_C5 (ext : ℕ → String → Except PyErr Unit)
    (i : ℕ) (e : PyErr)
    (hi : i < callSites.length)
    (hpre : ∀ j, j < i → ext j (callSites.getD j "") = .ok ())
    (hfail : ext i (callSites.getD i "") = .error e) :
    stmtListHasTry notebookProgram = false ∧ runCalls ext = .error e := by
  refine ⟨by decide, ?_⟩
  refine runCallsAux_propagates ext e callSites 0 i hi ?_ ?_
  · intro j hj
    simpa using hpre j hj
  · simpa using hfail

/-- C5 (witness): an oracle whose very first external call raises. -/
theorem no_error_handler_C5_witness :
    stmtListHasTry notebookProgram = false ∧
      runCalls (fun _ _ => .error .keyError) = .error .keyError :=
  no_error_handler_C5 (fun _ _ => .error PyErr.keyError) 0 .keyError
    (by decide) (fun j hj => absurd hj (Nat.not_lt_zero j)) rfl

/-- C6: executed top to bottom, the stage occurrences of the notebook
are Concentration construction, then training-structure generation
(twice), then relaxation, then fitting, then ground-state search
(twice); every stage occurs, and no stage occurrence precedes an
occurrence of each earlier stage. -/
theorem stage_order_C6 :
    stagesTrace = [Stage.concentration, Stage.structGen, Stage.structGen,
      Stage.relaxation, Stage.fitting, Stage.gsSearch, Stage.gsSearch] ∧
    stageOrderOk stagesTrace = true ∧
    allStages.all (fun s => stagesTrace.contains s) = true := by
  exact ⟨by decide, by decide, by decide⟩

/-- C7: the notebook introduces no concurrency construct, and its
observable behaviour equals the sequential cell-by-cell evaluation of
its cells in notebook order. -/
theorem sequential_execution_C7 (ext : ℕ → String → Except PyErr Unit) :
    stmtListConc notebookProgram = false ∧
    runCalls ext = seqRunCells ext 0 notebookCells := by
  refine ⟨by decide, ?_⟩
  exact runCallsAux_flatten ext notebookCells 0

/-- C8: every notebook access to the six template geometry files is a
read; the files are never written or modified (the run leaves the
geometry file store unchanged), and the read results are passed on to
`view` and to `generate_gs_structure`. -/
theorem template_files_readonly_C8 (E : List (String × ℚ)) (w0 w : World)
    (h : runNotebookWorld E w0 = .ok w) :
    ((notebookFileEvents.filter (fun p => templateFiles.contains p.1)).all
        (fun p => p.2 == FMode.read) = true) ∧
    (templateFiles.all (fun f => notebookFileEvents.contains (f, FMode.read))
        = true) ∧
    w.geomFiles = w0.geomFiles ∧
    (∃ a1 a2 a3,
      geomRead w0 "template_au3cu.traj" = .ok a1 ∧
      geomRead w0 "template_aucu.traj" = .ok a2 ∧
      geomRead w0 "template_aucu3.traj" = .ok a3 ∧
      [a1, a2, a3] ∈ w.viewedGeom ∧ ∃ g ∈ w.gsCalls, g.atoms = [a1, a2, a3]) := by
  rcases runNotebookWorld_ok h with
    ⟨a1, a2, a3, s1, s2, s3, h1, h2, h3, _, _, _, rfl⟩
  refine ⟨by decide, by decide, rfl, a1, a2, a3, h1, h2, h3, ?_, ?_⟩
  · simp
  · exact ⟨⟨[a1, a2, a3], E, false⟩, by simp, rfl⟩

/-- C8 (witness): the run from a world holding the six template files
leaves the geometry file store unchanged. -/
theorem template_files_readonly_C8_witness :
    ∃ w, runNotebookWorld exEci exWorld0 = .ok w ∧
      w.geomFiles = exWorld0.geomFiles :=
  ⟨_, rfl, (template_files_readonly_C8 exEci exWorld0 _ rfl).2.2.1⟩

/-- C9: when the minimum-energy selection cell completes, `names` holds
exactly three entries, in the order Au3Cu1, Au1Cu1, Au1Cu3, and each is
the name of a selected initial row whose final energy divided by the
initial row's atom count is minimal over all such rows. -/
theorem min_energy_selection_C9 (db : List DbRow) (ns : List String)
    (h : minEnergyNames db = .ok ns) :
    ∃ n1 n2 n3, ns = [n1, n2, n3] ∧
      rowMinimalFor db "Au3Cu1" n1 ∧ rowMinimalFor db "Au1Cu1" n2 ∧
      rowMinimalFor db "Au1Cu3" n3 := by
  unfold minEnergyNames at h
  rcases h1 : blockFU db "Au3Cu1" with e | n1 <;> rw [h1] at h <;> dsimp only at h
  · cases h
  rcases h2 : blockFU db "Au1Cu1" with e | n2 <;> rw [h2] at h <;> dsimp only at h
  · cases h
  rcases h3 : blockFU db "Au1Cu3" with e | n3 <;> rw [h3] at h <;> dsimp only at h
  · cases h
  cases h
  exact ⟨n1, n2, n3, rfl, blockFU_rowMinimal h1, blockFU_rowMinimal h2,
    blockFU_rowMinimal h3⟩

theorem min_energy_selection_C9_witness :
    ∃ n1 n2 n3, (["wA", "wB", "wC"] : List String) = [n1, n2, n3] ∧
      rowMinimalFor exDb3 "Au3Cu1" n1 ∧ rowMinimalFor exDb3 "Au1Cu1" n2 ∧
      rowMinimalFor exDb3 "Au1Cu3" n3 :=
  min_energy_selection_C9 exDb3 ["wA", "wB", "wC"] rfl

/-- C10: if the database has no initial row for one of the three formula
units (the blocks before it succeeding), the selection cell fails with an
IndexError at element 0 of the empty sorted list instead of skipping the
composition or producing a partial names list. -/
theorem missing_composition_index_error_C10 (db : List DbRow) :
    (selectFU db "Au3Cu1" = [] → minEnergyNames db = .error .indexError) ∧
    (∀ n1, blockFU db "Au3Cu1" = .ok n1 → selectFU db "Au1Cu1" = [] →
      minEnergyNames db = .error .indexError) ∧
    (∀ n1 n2, blockFU db "Au3Cu1" = .ok n1 → blockFU db "Au1Cu1" = .ok n2 →
      selectFU db "Au1Cu3" = [] → minEnergyNames db = .error .indexError) := by
  refine ⟨?_, ?_, ?_⟩
  · intro hsel
    simp [minEnergyNames, blockFU_of_empty_select hsel]
  · intro n1 h1 hsel
    simp [minEnergyNames, h1, blockFU_of_empty_select hsel]
  · intro n1 n2 h1 h2 hsel
    simp [minEnergyNames, h1, h2, blockFU_of_empty_select hsel]

/-- C10 (witness): the selection cell on the empty database raises
IndexError. -/
theorem missing_composition_index_error_C10_witness :
    minEnergyNames [] = .error .indexError :=
  (missing_composition_index_error_C10 []).1 rfl
